import Mathlib

/-!
# slowhttptest: connection slot (`SlowSocket`) and launcher (`main`)

A shallow embedding of `src/trunk/src/slowsocket.cc` and of the option loop of
`src/src/slowhttptestmain.cc`, followed by the properties established for them.

Conventions of the embedding.

* A C++ object is a structure; a member function takes the object and returns the
  updated object together with whatever the function returns.
* Pointers (`buf_`, `ssl_`, `ai_addr`) are natural numbers, `0` being the null pointer.
* `int` members are integers.  The member declarations live in `slowsocket.h`, which is
  not among the sources; the counters and `offset_` are taken wide enough for the values
  stored in them (no wrap-around on `offset_ = len` or on a decrement).
* Everything the operating system or the TLS library answers is an explicit argument
  (`SendEnv`, `RecvEnv`, `InitEnv`); calls that only log are dropped.
-/

namespace slowhttptest

/-- Value of `SSL_ERROR_WANT_READ` in `openssl/ssl.h`. -/
def SSL_ERROR_WANT_READ : Int := 2

/-- Value of `SSL_ERROR_WANT_WRITE` in `openssl/ssl.h`. -/
def SSL_ERROR_WANT_WRITE : Int := 3

/-- Value of `EINPROGRESS` in `errno.h` (Linux). -/
def EINPROGRESS : Int := 115

/-- Value of `O_NONBLOCK` in `fcntl.h` (Linux). -/
def O_NONBLOCK : Int := 2048

/-- The enumeration `SocketState`; its enumerators are the labels of the `switch` in
`SlowSocket::set_state`. -/
inductive SocketState where
  | eInit
  | eConnecting
  | eConnected
  | eError
  | eClosed
  deriving DecidableEq, Repr

/-- The enumeration `SendType`, with the two enumerators `send_slow` tests for. -/
inductive SendType where
  | eInitialSend
  | eFollowUpSend
  deriving DecidableEq, Repr

/-- The data members of `SlowSocket`, in the order of the constructor's initialiser list. -/
structure SlowSocket where
  sockfd_ : Int
  requests_to_send_ : Int
  followups_to_send_ : Int
  last_followup_timing_ : Int
  offset_ : Int
  ssl_ : Nat
  buf_ : Nat
  start_in_millisecs_ : Int
  connected_in_millisecs_ : Int
  stop_in_millisecs_ : Int
  state_ : SocketState
  deriving DecidableEq, Repr

/-- The constructor `SlowSocket::SlowSocket()`. -/
def SlowSocket.new : SlowSocket :=
  { sockfd_ := -1, requests_to_send_ := 0, followups_to_send_ := 0,
    last_followup_timing_ := 0, offset_ := 0, ssl_ := 0, buf_ := 0,
    start_in_millisecs_ := 0, connected_in_millisecs_ := 0,
    stop_in_millisecs_ := 0, state_ := SocketState.eInit }

/-- The member `SlowSocket::close()`.  `SSL_free` and `::close` act on the library and the
kernel only; on the object they leave `ssl_ = NULL` and `sockfd_ = -1`. -/
def SlowSocket.close (s : SlowSocket) : SlowSocket :=
  if s.sockfd_ = -1 then s
  else
    let s1 := if s.ssl_ ≠ 0 then { s with ssl_ := 0 } else s
    { s1 with requests_to_send_ := 0, followups_to_send_ := 0, sockfd_ := -1 }

/-- What the TLS library and the transport answer during one `send_slow` call. -/
structure SendEnv where
  /-- Result of `SSL_is_init_finished(ssl_)`. -/
  SSL_is_init_finished : Bool
  /-- Result of `SSL_do_handshake(ssl_)`. -/
  SSL_do_handshake : Int
  /-- Result of `SSL_get_error(ssl_, ret)`. -/
  SSL_get_error : Int
  /-- Result of `SSL_write(ssl_, buf_, offset_)` or `send(sockfd_, buf_, offset_, 0)`. -/
  write : Int

/-- Outcome of one `send_slow` call: the object afterwards, the returned `int`, and the
arguments `(buf_, offset_)` handed to `SSL_write`/`send` when that call was reached. -/
structure SendResult where
  sock : SlowSocket
  ret : Int
  wrote : Option (Nat × Int)

/-- Lines 194-217 of `SlowSocket::send_slow`: latch the buffer when none is pending, write,
and account for the result. -/
def SlowSocket.send_slow_write (s : SlowSocket) (buf : Nat) (len : Nat) (type : SendType)
    (env : SendEnv) : SendResult :=
  let s1 := if s.buf_ = 0 then { s with buf_ := buf, offset_ := (len : Int) } else s
  let ret := env.write
  if 0 < ret ∧ ret = s1.offset_ then
    let s2 :=
      if type = SendType.eInitialSend then
        { s1 with requests_to_send_ := s1.requests_to_send_ - 1 }
      else if type = SendType.eFollowUpSend then
        { s1 with followups_to_send_ := s1.followups_to_send_ - 1 }
      else s1
    { sock := { s2 with buf_ := 0, offset_ := 0 }, ret := ret,
      wrote := some (s1.buf_, s1.offset_) }
  else if 0 < ret ∧ ret < s1.offset_ then
    { sock := { s1 with buf_ := s1.buf_ + ret.toNat, offset_ := s1.offset_ - ret },
      ret := ret, wrote := some (s1.buf_, s1.offset_) }
  else
    { sock := s1, ret := ret, wrote := some (s1.buf_, s1.offset_) }

/-- The member `SlowSocket::send_slow(buf, len, type)`.  The assignment `errno = EAGAIN`
concerns the caller only and is not part of the object. -/
def SlowSocket.send_slow (s : SlowSocket) (buf : Nat) (len : Nat) (type : SendType)
    (env : SendEnv) : SendResult :=
  if s.ssl_ ≠ 0 then
    if ¬ env.SSL_is_init_finished then
      let ret := env.SSL_do_handshake
      if ret ≤ 0 then
        let err := env.SSL_get_error
        if SSL_ERROR_WANT_READ ≠ err ∧ SSL_ERROR_WANT_WRITE ≠ err then
          { sock := s.close, ret := -1, wrote := none }
        else if SSL_ERROR_WANT_READ = err then
          { sock := { s with requests_to_send_ := 0 }, ret := -1, wrote := none }
        else
          { sock := { s with requests_to_send_ := 1 }, ret := -1, wrote := none }
      else
        SlowSocket.send_slow_write { s with requests_to_send_ := 1 } buf len type env
    else
      SlowSocket.send_slow_write s buf len type env
  else
    SlowSocket.send_slow_write s buf len type env

/-- What the TLS library and the transport answer during one `recv_slow` call. -/
structure RecvEnv where
  /-- Result of `SSL_read(ssl_, buf, len)` or `recv(sockfd_, buf, len, 0)`. -/
  read : Int
  /-- Result of `SSL_get_error(ssl_, ret)`. -/
  SSL_get_error : Int
  /-- Result of `SSL_is_init_finished(ssl_)`. -/
  SSL_is_init_finished : Bool

/-- The member `SlowSocket::recv_slow(buf, len)`; the receive buffer is the caller's and is
not part of the object, so only the returned count is kept. -/
def SlowSocket.recv_slow (s : SlowSocket) (env : RecvEnv) : SlowSocket × Int :=
  let ret := env.read
  if s.ssl_ ≠ 0 then
    let s1 :=
      if ret < 0 then
        if env.SSL_get_error = SSL_ERROR_WANT_WRITE then { s with requests_to_send_ := 1 }
        else s
      else s
    let s2 :=
      if env.SSL_is_init_finished = true ∧ s1.state_ = SocketState.eConnecting then
        { s1 with requests_to_send_ := 1 }
      else s1
    (s2, ret)
  else (s, ret)

/-- Modelled from the spec: the inline setter `set_start` of `slowsocket.h` (absent), which
records the start timestamp. -/
def SlowSocket.set_start (s : SlowSocket) (t : Int) : SlowSocket :=
  { s with start_in_millisecs_ := t }

/-- Modelled from the spec: the inline setter `set_connected` of `slowsocket.h` (absent),
which records the connected timestamp. -/
def SlowSocket.set_connected (s : SlowSocket) (t : Int) : SlowSocket :=
  { s with connected_in_millisecs_ := t }

/-- Modelled from the spec: the inline setter `set_stop` of `slowsocket.h` (absent), which
records the stop timestamp. -/
def SlowSocket.set_stop (s : SlowSocket) (t : Int) : SlowSocket :=
  { s with stop_in_millisecs_ := t }

/-- The member `SlowSocket::set_state(state)`; `t` is what `gettimeofday` answered. -/
def SlowSocket.set_state (s : SlowSocket) (state : SocketState) (t : Int) : SlowSocket :=
  let s1 :=
    match state with
    | SocketState.eInit => s
    | SocketState.eConnecting => s.set_start t
    | SocketState.eConnected => s.set_connected t
    | SocketState.eError => s
    | SocketState.eClosed => s.set_stop t
  { s1 with state_ := state }

/-- One node of the resolver's `addrinfo` list; the list itself (`ai_next`) is a Lean list. -/
structure addrinfo where
  ai_family : Int
  ai_socktype : Int
  ai_protocol : Int
  /-- The socket address `ai_addr` (with its `ai_addrlen`), as an identifier. -/
  ai_addr : Nat
  deriving DecidableEq, Repr

/-- What the kernel and the TLS library answer during one `init` call. -/
structure InitEnv where
  /-- Result of `socket(family, socktype, protocol)`. -/
  socket : Int → Int → Int → Int
  /-- Result of `fcntl(fd, F_GETFL, 0)`. -/
  fcntl_getfl : Int → Int
  /-- Result of `fcntl(fd, F_SETFL, flags)`. -/
  fcntl_setfl : Int → Int → Int
  /-- Result of `connect(fd, sockaddr, len)`: the returned value and `errno`. -/
  connect : Int → Nat → Int × Int
  /-- Result of `SSL_CTX_new(method)`. -/
  SSL_CTX_new : Nat
  /-- Result of `SSL_new(ssl_ctx)`. -/
  SSL_new : Nat
  /-- Result of `SSL_connect(ssl_)`. -/
  SSL_connect : Int
  /-- Result of `SSL_get_error(ssl_, ret)`. -/
  SSL_get_error : Int

/-- The member `SlowSocket::set_nonblocking()`; it changes no data member. -/
def SlowSocket.set_nonblocking (s : SlowSocket) (env : InitEnv) : Int :=
  let flags := if env.fcntl_getfl s.sockfd_ = -1 then 0 else env.fcntl_getfl s.sockfd_
  env.fcntl_setfl s.sockfd_ (Int.lor flags O_NONBLOCK)

/-- The member `SlowSocket::connect_plain(addr)`. -/
def SlowSocket.connect_plain (s : SlowSocket) (addr : addrinfo) (env : InitEnv) :
    SlowSocket × Bool :=
  if (env.connect s.sockfd_ addr.ai_addr).1 < 0
      ∧ EINPROGRESS ≠ (env.connect s.sockfd_ addr.ai_addr).2 then
    (s.close, false)
  else (s, true)

/-- The member `SlowSocket::connect_ssl(addr)`. -/
def SlowSocket.connect_ssl (s : SlowSocket) (addr : addrinfo) (env : InitEnv) :
    SlowSocket × Bool :=
  let r := s.connect_plain addr env
  if ¬ r.2 then (r.1, false)
  else if env.SSL_CTX_new = 0 then (r.1.close, false)
  else
    let s1 : SlowSocket := { r.1 with ssl_ := env.SSL_new }
    if s1.ssl_ = 0 then (s1.close, false)
    else if env.SSL_connect ≤ 0 then
      if SSL_ERROR_WANT_READ ≠ env.SSL_get_error
          ∧ SSL_ERROR_WANT_WRITE ≠ env.SSL_get_error then
        (s1.close, false)
      else (s1, true)
    else (s1, true)

/-- Outcome of one `init` call: the object afterwards, the updated `maxfd`, the returned
`bool`, and the socket addresses `connect` was called with, oldest first. -/
structure InitResult where
  sock : SlowSocket
  maxfd : Int
  ret : Bool
  connects : List Nat
  deriving DecidableEq, Repr

/-- The `for` loop of `SlowSocket::init` and the statements after it.  `addr` is the head of
the list (the argument of `init`), the list argument holds the nodes from `res` on, and
`log` the `connect` calls made so far.  The body passes `addr`, not `res`, to
`connect_ssl`/`connect_plain`, as the source does. -/
def SlowSocket.init_loop (env : InitEnv) (isSSL : Bool) (addr : addrinfo)
    (followups_to_send : Int) (maxfd : Int) :
    List addrinfo → SlowSocket → List Nat → InitResult
  | [], s, log =>
    let s1 : SlowSocket :=
      { s with followups_to_send_ := followups_to_send, requests_to_send_ := 1 }
    { sock := s1, maxfd := max s1.sockfd_ maxfd, ret := true, connects := log }
  | res :: rest, s, log =>
    let s1 : SlowSocket :=
      { s with sockfd_ := env.socket res.ai_family res.ai_socktype res.ai_protocol }
    if s1.sockfd_ = -1 then
      { sock := s1, maxfd := maxfd, ret := false, connects := log }
    else if s1.set_nonblocking env = -1 then
      { sock := s1, maxfd := maxfd, ret := false, connects := log }
    else
      let r := if isSSL then s1.connect_ssl addr env else s1.connect_plain addr env
      if r.2 then
        let s2 : SlowSocket :=
          { r.1 with followups_to_send_ := followups_to_send, requests_to_send_ := 1 }
        { sock := s2, maxfd := max s2.sockfd_ maxfd, ret := true,
          connects := log ++ [addr.ai_addr] }
      else
        SlowSocket.init_loop env isSSL addr followups_to_send maxfd rest r.1
          (log ++ [addr.ai_addr])

/-- The member `SlowSocket::init(addr, url, maxfd, followups_to_send)`; `isSSL` is what
`url->isSSL()` answers. -/
def SlowSocket.init (s : SlowSocket) (addr : List addrinfo) (isSSL : Bool) (maxfd : Int)
    (followups_to_send : Int) (env : InitEnv) : InitResult :=
  match addr with
  | [] => SlowSocket.init_loop env isSSL ⟨0, 0, 0, 0⟩ followups_to_send maxfd [] s []
  | a :: rest =>
    SlowSocket.init_loop env isSSL a followups_to_send maxfd (a :: rest) s []

end slowhttptest

namespace slowhttptestmain

/-- Value of `INT_MAX` in `limits.h` (32-bit `int`). -/
def INT_MAX : Int := 2147483647

/-- The log level `LOG_FATAL` of `slowlog.h` (absent): level 0 in the text of `usage`. -/
def LOG_FATAL : Int := 0

/-- The log level `LOG_INFO` of `slowlog.h` (absent): level 1 in the text of `usage`. -/
def LOG_INFO : Int := 1

/-- The macro `DEFAULT_URL`. -/
def DEFAULT_URL : String := "http://localhost/"

/-- The conversion `static_cast<int>(tmp)` of a `long` to a 32-bit `int`. -/
def static_cast_int (tmp : Int) : Int := (tmp + 2 ^ 31) % 2 ^ 32 - 2 ^ 31

/-- The enumeration `SlowTestType`, with the two enumerators `main` uses. -/
inductive SlowTestType where
  | eHeader
  | ePost
  deriving DecidableEq, Repr

/-- The local variables of `main` that the option loop fills in. -/
structure Locals where
  url : String
  path : String
  verb : String
  conn_cnt : Int
  content_length : Int
  rate : Int
  duration : Int
  debug_level : Int
  interval : Int
  max_random_data_len : Int
  need_stats : Bool
  type : SlowTestType
  deriving DecidableEq, Repr

/-- The initial values of the locals of `main` ("default vaules"). -/
def defaults : Locals :=
  { url := "", path := "", verb := "", conn_cnt := 50, content_length := 4096, rate := 50,
    duration := 240, debug_level := LOG_INFO, interval := 10, max_random_data_len := 32,
    need_stats := false, type := SlowTestType.eHeader }

/-- How far `main` gets: it returns `code` from inside the option handling, before the
`SlowHTTPTest` object exists, or it reaches `new SlowHTTPTest(...)` with the given locals
(what happens from there on is decided by `slowhttptest.cc`, which is not among the
sources). -/
inductive Outcome where
  | exited (code : Int)
  | constructed (v : Locals)
  deriving DecidableEq, Repr

/-- The `switch (o)` of `main` for one answer of `getopt`, the option character `o` with its
`optarg`: either `main` returns the given code, or the `switch` is left by `break` with the
locals updated.  `strtol` is the library function applied as `strtol(optarg, 0, 10)`;
`usage()` and `printf` only print. -/
def main_switch (strtol : String → Int) (o : Char) (optarg : String) (v : Locals) :
    Except Int Locals :=
  if o = 'c' then
    if strtol optarg ≠ 0 ∧ strtol optarg ≤ 1024 then
      Except.ok { v with conn_cnt := static_cast_int (strtol optarg) }
    else Except.error (-1)
  else if o = 'h' then Except.error 1
  else if o = 'H' then Except.ok { v with type := SlowTestType.eHeader }
  else if o = 'g' then Except.ok { v with need_stats := true }
  else if o = 'B' then Except.ok { v with type := SlowTestType.ePost }
  else if o = 'i' then
    if strtol optarg ≠ 0 ∧ strtol optarg ≤ INT_MAX then
      Except.ok { v with interval := static_cast_int (strtol optarg) }
    else Except.error (-1)
  else if o = 'l' then
    if strtol optarg ≠ 0 ∧ strtol optarg ≤ INT_MAX then
      Except.ok { v with duration := static_cast_int (strtol optarg) }
    else Except.error (-1)
  else if o = 'o' then Except.ok { v with path := optarg.take 1023 }
  else if o = 'r' then
    if strtol optarg ≠ 0 ∧ strtol optarg ≤ INT_MAX then
      Except.ok { v with rate := static_cast_int (strtol optarg) }
    else Except.error (-1)
  else if o = 's' then
    if strtol optarg ≠ 0 ∧ strtol optarg ≤ INT_MAX then
      Except.ok { v with content_length := static_cast_int (strtol optarg) }
    else Except.error (-1)
  else if o = 't' then Except.ok { v with verb := optarg.take 15 }
  else if o = 'u' then Except.ok { v with url := optarg.take 1023 }
  else if o = 'v' then
    if 0 ≤ strtol optarg ∧ strtol optarg ≤ 4 then
      Except.ok { v with debug_level := static_cast_int (strtol optarg) }
    else Except.ok { v with debug_level := LOG_FATAL }
  else if o = 'x' then
    if strtol optarg ≠ 0 ∧ strtol optarg ≤ INT_MAX then
      Except.ok
        { v with max_random_data_len :=
            if static_cast_int (strtol optarg) < 2 then 2
            else static_cast_int (strtol optarg) }
    else Except.error (-1)
  else if o = '?' then Except.error (-1)
  else Except.error (-1)

/-- The `while` loop of `main` and the statements after it up to the construction of the
test object.  The list holds what successive `getopt` calls answer, as pairs of the option
character and `optarg`; the end of the list is `getopt` returning -1. -/
def main_loop (strtol : String → Int) : List (Char × String) → Locals → Outcome
  | [], v =>
    Outcome.constructed (if v.url.length = 0 then { v with url := DEFAULT_URL } else v)
  | (o, optarg) :: rest, v =>
    match main_switch strtol o optarg v with
    | Except.error code => Outcome.exited code
    | Except.ok w => main_loop strtol rest w

/-- The function `main`, up to the construction of the test object. -/
def main (strtol : String → Int) (argc : Int) (opts : List (Char × String)) : Outcome :=
  if argc < 1 then Outcome.exited (-1)
  else main_loop strtol opts defaults

/-- The largest value the option loop of `main` accepts for a numeric option: 1024 for
`-c`, `INT_MAX` for `-i`, `-l`, `-r`, `-s` and `-x`. -/
def upper_bound (o : Char) : Int := if o = 'c' then 1024 else INT_MAX

end slowhttptestmain

namespace slowhttptest

/-- The counter a send of the given type is accounted to: `requests_to_send_` for
`eInitialSend`, `followups_to_send_` for `eFollowUpSend`. -/
def SlowSocket.counter (s : SlowSocket) : SendType → Int
  | SendType.eInitialSend => s.requests_to_send_
  | SendType.eFollowUpSend => s.followups_to_send_

/-- The other counter. -/
def SlowSocket.other_counter (s : SlowSocket) : SendType → Int
  | SendType.eInitialSend => s.followups_to_send_
  | SendType.eFollowUpSend => s.requests_to_send_

/-- Successive `send_slow(buf, len, type)` calls on one buffer, one per entry of the list:
the send type of the call and what the environment answers during it. -/
def send_all (buf : Nat) (len : Nat) : SlowSocket → List (SendType × SendEnv) → SlowSocket
  | s, [] => s
  | s, c :: cs => send_all buf len (s.send_slow buf len c.1 c.2).sock cs

/-- Bytes the transport accepted over a sequence of calls: the sum of the positive write
results. -/
def consumed : List (SendType × SendEnv) → Int
  | [] => 0
  | c :: cs => (if 0 < c.2.write then c.2.write else 0) + consumed cs

/-- The transport answers a sequence of writes of a buffer with `rem` bytes left sensibly:
each result is non-positive or at most what is left, and no write follows the one that
completes the buffer. -/
def validWrites : Int → List (SendType × SendEnv) → Bool
  | _, [] => true
  | rem, c :: cs =>
    if c.2.write ≤ 0 then validWrites rem cs
    else if c.2.write < rem then validWrites (rem - c.2.write) cs
    else decide (c.2.write = rem) && cs.isEmpty

/-- The slot has a TLS session and some call of the sequence finds the handshake unfinished;
when that call gets as far as the transport write it has completed the handshake and run
line 186, `requests_to_send_ = 1`. -/
def completesHandshake (s : SlowSocket) (calls : List (SendType × SendEnv)) : Bool :=
  decide (s.ssl_ ≠ 0) && calls.any (fun c => !c.2.SSL_is_init_finished)

/-- The slot as lines 194-217 of `send_slow` find it in a call that gets there: on a TLS slot
whose handshake this very call completes, line 186 has set `requests_to_send_` to 1;
otherwise the slot is as the caller left it. -/
def before_write (s : SlowSocket) (e : SendEnv) : SlowSocket :=
  if s.ssl_ ≠ 0 ∧ ¬ e.SSL_is_init_finished = true then { s with requests_to_send_ := 1 }
  else s

/-- One call on a slot, with everything the environment answers during it. -/
inductive Op where
  | init (addr : List addrinfo) (isSSL : Bool) (maxfd : Int) (followups_to_send : Int)
      (env : InitEnv)
  | send_slow (buf : Nat) (len : Nat) (type : SendType) (env : SendEnv)
  | recv_slow (env : RecvEnv)
  | close

/-- The slot after one call. -/
def step (s : SlowSocket) : Op → SlowSocket
  | Op.init addr isSSL maxfd f env => (s.init addr isSSL maxfd f env).sock
  | Op.send_slow buf len type env => (s.send_slow buf len type env).sock
  | Op.recv_slow env => (s.recv_slow env).1
  | Op.close => s.close

/-- The slot after a sequence of calls, oldest first. -/
def run : SlowSocket → List Op → SlowSocket
  | s, [] => s
  | s, op :: ops => run (step s op) ops

/-- The discipline of the caller for follow-ups: `init` is given a non-negative
`followups_to_send`, and a `send_slow` of type `eFollowUpSend` is issued only while
`followups_to_send_` is positive. -/
def followupGuard (s : SlowSocket) : Op → Bool
  | Op.init _ _ _ f _ => decide (0 ≤ f)
  | Op.send_slow _ _ SendType.eFollowUpSend _ => decide (0 < s.followups_to_send_)
  | _ => true

/-- Every call of the sequence, started on `s`, obeys `followupGuard`. -/
def followupGuarded : SlowSocket → List Op → Bool
  | _, [] => true
  | s, op :: ops => followupGuard s op && followupGuarded (step s op) ops

end slowhttptest

/-! ## Sample inputs -/

namespace slowhttptest

/-- A plain slot whose connection is up: descriptor 3, one initial request and two
follow-ups owed, nothing pending. -/
def connectedSlot : SlowSocket :=
  { sockfd_ := 3, requests_to_send_ := 1, followups_to_send_ := 2,
    last_followup_timing_ := 0, offset_ := 0, ssl_ := 0, buf_ := 0,
    start_in_millisecs_ := 10, connected_in_millisecs_ := 12,
    stop_in_millisecs_ := 0, state_ := SocketState.eConnected }

/-- A resolved list of two IPv4/TCP addresses, with socket addresses 1 and 2. -/
def twoAddresses : List addrinfo :=
  [{ ai_family := 2, ai_socktype := 1, ai_protocol := 6, ai_addr := 1 },
   { ai_family := 2, ai_socktype := 1, ai_protocol := 6, ai_addr := 2 }]

/-- A kernel that hands out descriptor 3, makes it non-blocking, refuses the connection to
socket address 1 at once (`ECONNREFUSED`, 111) and starts the one to any other address
(`EINPROGRESS`). -/
def firstRefused : InitEnv :=
  { socket := fun _ _ _ => 3, fcntl_getfl := fun _ => 2, fcntl_setfl := fun _ _ => 0,
    connect := fun _ a => if a = 1 then (-1, 111) else (-1, EINPROGRESS),
    SSL_CTX_new := 1, SSL_new := 1, SSL_connect := -1, SSL_get_error := SSL_ERROR_WANT_READ }

/-- A kernel that hands out descriptor 3, makes it non-blocking and starts every
connection (`EINPROGRESS`). -/
def allStarted : InitEnv :=
  { socket := fun _ _ _ => 3, fcntl_getfl := fun _ => 2, fcntl_setfl := fun _ _ => 0,
    connect := fun _ _ => (-1, EINPROGRESS),
    SSL_CTX_new := 1, SSL_new := 1, SSL_connect := -1, SSL_get_error := SSL_ERROR_WANT_READ }

/-- A transport that accepts `n` bytes on a slot without TLS or with the handshake done. -/
def wrote (n : Int) : SendEnv :=
  { SSL_is_init_finished := true, SSL_do_handshake := 1, SSL_get_error := 0, write := n }

/-- A TLS library whose handshake step wants to read first; the transport write is not
reached. -/
def wantsRead : SendEnv :=
  { SSL_is_init_finished := false, SSL_do_handshake := -1,
    SSL_get_error := SSL_ERROR_WANT_READ, write := 0 }

/-- A TLS library whose handshake step completes the handshake during the call, followed by
a transport that accepts `n` bytes. -/
def completing (n : Int) : SendEnv :=
  { SSL_is_init_finished := false, SSL_do_handshake := 1, SSL_get_error := 0, write := n }

/-- A TLS slot in the middle of its handshake: a fresh slot after `init` on a TLS target
with two follow-ups and one `send_slow` whose handshake step wanted to read.  It has a TLS
session, nothing pending and `requests_to_send_ = 0`. -/
def handshakingSlot : SlowSocket :=
  run SlowSocket.new
    [Op.init twoAddresses true 0 2 allStarted,
     Op.send_slow 100 5 SendType.eInitialSend wantsRead]

end slowhttptest

namespace slowhttptestmain

/-- Value accumulated by `strtol` over the leading decimal digits of the input. -/
def strtol_digits : List Char → Int → Int
  | [], acc => acc
  | c :: cs, acc =>
    if c.isDigit then strtol_digits cs (acc * 10 + ((c.toNat - 48 : Nat) : Int)) else acc

/-- The C library's `strtol(s, 0, 10)` with a 64-bit `long`, for inputs without leading
white space: optional sign, leading digits, clamped to the range of `long`. -/
def strtol (s : String) : Int :=
  let v : Int :=
    match s.data with
    | '-' :: cs => - strtol_digits cs 0
    | '+' :: cs => strtol_digits cs 0
    | cs => strtol_digits cs 0
  max (-(2 ^ 63)) (min v (2 ^ 63 - 1))

end slowhttptestmain

/-! ## Properties of `close`, `set_state` and a single `send_slow` -/

namespace slowhttptest

theorem close_sockfd (s : SlowSocket) : s.close.sockfd_ = -1 := by
  unfold SlowSocket.close
  split <;> simp_all

theorem close_state (s : SlowSocket) : s.close.state_ = s.state_ := by
  unfold SlowSocket.close
  split <;> [rfl; (split <;> rfl)]

theorem close_of_absent (s : SlowSocket) (h : s.sockfd_ = -1) : s.close = s := by
  unfold SlowSocket.close
  simp [h]

theorem close_followups_nonneg (s : SlowSocket) (h : 0 ≤ s.followups_to_send_) :
    0 ≤ s.close.followups_to_send_ := by
  unfold SlowSocket.close
  split <;> [exact h; (split <;> simp)]

theorem send_slow_eq_write (s : SlowSocket) (buf len : Nat) (type : SendType) (env : SendEnv)
    (h : s.ssl_ = 0 ∨ env.SSL_is_init_finished = true) :
    s.send_slow buf len type env = s.send_slow_write buf len type env := by
  unfold SlowSocket.send_slow
  rcases h with h | h <;> simp [h]

theorem send_slow_of_inputs (s : SlowSocket) (buf len : Nat) (type : SendType) (e : SendEnv)
    (h : s.ssl_ = 0 ∨ e.SSL_is_init_finished = true ∨ 0 < e.SSL_do_handshake) :
    s.send_slow buf len type e = (before_write s e).send_slow_write buf len type e := by
  unfold SlowSocket.send_slow before_write
  simp only
  by_cases hs : s.ssl_ ≠ 0
  · by_cases hf : ¬ e.SSL_is_init_finished = true
    · have hh : ¬ e.SSL_do_handshake ≤ 0 := by
        rcases h with h | h | h
        · exact absurd h hs
        · exact absurd h hf
        · omega
      rw [if_pos hs, if_pos hf, if_neg hh, if_pos ⟨hs, hf⟩]
    · rw [if_pos hs, if_neg hf, if_neg (fun c => hf c.2)]
  · rw [if_neg hs, if_neg (fun c => hs c.1)]

theorem before_write_fields (s : SlowSocket) (e : SendEnv) :
    (before_write s e).buf_ = s.buf_ ∧ (before_write s e).offset_ = s.offset_
      ∧ (before_write s e).ssl_ = s.ssl_
      ∧ (before_write s e).followups_to_send_ = s.followups_to_send_ := by
  unfold before_write
  split_ifs <;> exact ⟨rfl, rfl, rfl, rfl⟩

/-- C1: on a slot without TLS or with the handshake finished, `send_slow(buf, len, type)`
hands the transport the pending remainder `(buf_, offset_)` when a buffer is pending and
the given `(buf, len)` otherwise, and returns what the transport answers.  When that
answer is positive and equal to the attempted length, the counter of `type` drops by one,
the other counter is unchanged and the pending buffer is cleared; when it is positive and
below the attempted length, the pending position advances by it, the remaining length
drops by it and both counters are unchanged. -/
theorem send_slow_contract (s : SlowSocket) (buf len : Nat) (type : SendType) (env : SendEnv)
    (h : s.ssl_ = 0 ∨ env.SSL_is_init_finished = true) :
    (s.send_slow buf len type env).wrote
        = some (if s.buf_ = 0 then (buf, (len : Int)) else (s.buf_, s.offset_))
      ∧ (s.send_slow buf len type env).ret = env.write
      ∧ (0 < env.write ∧ env.write = (if s.buf_ = 0 then (len : Int) else s.offset_) →
          (s.send_slow buf len type env).sock.counter type = s.counter type - 1
          ∧ (s.send_slow buf len type env).sock.other_counter type = s.other_counter type
          ∧ (s.send_slow buf len type env).sock.buf_ = 0
          ∧ (s.send_slow buf len type env).sock.offset_ = 0)
      ∧ (0 < env.write ∧ env.write < (if s.buf_ = 0 then (len : Int) else s.offset_) →
          (s.send_slow buf len type env).sock.buf_
              = (if s.buf_ = 0 then buf else s.buf_) + env.write.toNat
          ∧ (s.send_slow buf len type env).sock.offset_
              = (if s.buf_ = 0 then (len : Int) else s.offset_) - env.write
          ∧ (s.send_slow buf len type env).sock.requests_to_send_ = s.requests_to_send_
          ∧ (s.send_slow buf len type env).sock.followups_to_send_
              = s.followups_to_send_) := by
  rw [send_slow_eq_write s buf len type env h]
  unfold SlowSocket.send_slow_write
  by_cases hb : s.buf_ = 0
  · simp only [hb, if_true]
    refine ⟨?_, ?_, ?_, ?_⟩
    · split_ifs <;> rfl
    · split_ifs <;> rfl
    · intro hw
      rw [if_pos hw]
      cases type <;> simp [SlowSocket.counter, SlowSocket.other_counter]
    · intro hw
      have hne : ¬ (0 < env.write ∧ env.write = (len : Int)) := fun c => by omega
      rw [if_neg hne, if_pos hw]
      simp
  · simp only [hb, if_false]
    refine ⟨?_, ?_, ?_, ?_⟩
    · split_ifs <;> rfl
    · split_ifs <;> rfl
    · intro hw
      rw [if_pos hw]
      cases type <;> simp [SlowSocket.counter, SlowSocket.other_counter]
    · intro hw
      have hne : ¬ (0 < env.write ∧ env.write = s.offset_) := fun c => by omega
      rw [if_neg hne, if_pos hw]
      simp

/-- Witness for C1: a full write of five bytes on `connectedSlot`. -/
theorem send_slow_contract_witness :
    (connectedSlot.ssl_ = 0 ∨ (wrote 5).SSL_is_init_finished = true)
      ∧ (connectedSlot.send_slow 100 5 SendType.eInitialSend (wrote 5)).wrote = some (100, 5)
      ∧ (connectedSlot.send_slow 100 5 SendType.eInitialSend (wrote 5)).sock.requests_to_send_
          = 0 :=
  ⟨Or.inl rfl,
   (send_slow_contract connectedSlot 100 5 SendType.eInitialSend (wrote 5) (Or.inl rfl)).1,
   ((send_slow_contract connectedSlot 100 5 SendType.eInitialSend (wrote 5)
      (Or.inl rfl)).2.2.1 (by decide)).1⟩

end slowhttptest

namespace slowhttptest

/-- C5 (the code at the failing input): a zero-length `send_slow` on `connectedSlot`, which
has nothing pending, with the transport answering 0, changes no counter but leaves the
given buffer latched as pending with zero bytes remaining; the next `send_slow` of five
bytes at address 200 then hands the transport the stale `(100, 0)` instead of `(200, 5)`
and, where the slot without the zero-length call completes the write and clears the
initial request, owes the initial request still; with the transport answering that
zero-byte write with 0 the slot stays as it is, the stale buffer latched. -/
theorem zero_length_send_latches_buffer :
    connectedSlot.buf_ = 0
      ∧ (connectedSlot.send_slow 100 0 SendType.eInitialSend (wrote 0)).sock
          = { connectedSlot with buf_ := 100, offset_ := 0 }
      ∧ (connectedSlot.send_slow 100 0 SendType.eInitialSend (wrote 0)).sock ≠ connectedSlot
      ∧ ((connectedSlot.send_slow 100 0 SendType.eInitialSend (wrote 0)).sock.send_slow
            200 5 SendType.eInitialSend (wrote 5)).wrote = some (100, 0)
      ∧ ((connectedSlot.send_slow 100 0 SendType.eInitialSend (wrote 0)).sock.send_slow
            200 5 SendType.eInitialSend (wrote 5)).sock.requests_to_send_ = 1
      ∧ (connectedSlot.send_slow 200 5 SendType.eInitialSend (wrote 5)).wrote = some (200, 5)
      ∧ (connectedSlot.send_slow 200 5 SendType.eInitialSend (wrote 5)).sock.requests_to_send_
          = 0
      ∧ ((connectedSlot.send_slow 100 0 SendType.eInitialSend (wrote 0)).sock.send_slow
            200 5 SendType.eInitialSend (wrote 0)).wrote = some (100, 0)
      ∧ ((connectedSlot.send_slow 100 0 SendType.eInitialSend (wrote 0)).sock.send_slow
            200 5 SendType.eInitialSend (wrote 0)).sock
          = { connectedSlot with buf_ := 100, offset_ := 0 } := by
  decide

/-- C6 (counterexample): after an `init` whose only connection attempt is refused at once,
`close()` leaves `requests_to_send_ = 1`, `followups_to_send_ = 5` and state `eInit`; and
on `connectedSlot`, whose descriptor is present, `close()` leaves the state `eConnected`.
So the claimed postcondition fails at both slots. -/
theorem close_counterexample :
    (SlowSocket.new.init [⟨2, 1, 6, 1⟩] false 0 5 firstRefused).sock.close.requests_to_send_ = 1
      ∧ (SlowSocket.new.init [⟨2, 1, 6, 1⟩] false 0 5
            firstRefused).sock.close.followups_to_send_ = 5
      ∧ (SlowSocket.new.init [⟨2, 1, 6, 1⟩] false 0 5 firstRefused).sock.close.state_
          = SocketState.eInit
      ∧ connectedSlot.close.state_ = SocketState.eConnected
      ∧ ¬ ((SlowSocket.new.init [⟨2, 1, 6, 1⟩] false 0 5 firstRefused).sock.close.sockfd_ = -1
            ∧ (SlowSocket.new.init [⟨2, 1, 6, 1⟩] false 0 5 firstRefused).sock.close.ssl_ = 0
            ∧ (SlowSocket.new.init [⟨2, 1, 6, 1⟩] false 0 5
                firstRefused).sock.close.requests_to_send_ = 0
            ∧ (SlowSocket.new.init [⟨2, 1, 6, 1⟩] false 0 5
                firstRefused).sock.close.followups_to_send_ = 0
            ∧ (SlowSocket.new.init [⟨2, 1, 6, 1⟩] false 0 5 firstRefused).sock.close.state_
                = SocketState.eClosed) := by
  decide

/-- C6 (amended): after `close()` the descriptor is absent (`sockfd_ = -1`) and the state is
what it was; when the descriptor was present before the call, the TLS session handle is
absent and `requests_to_send_` and `followups_to_send_` are both zero. -/
theorem close_postcondition (s : SlowSocket) :
    s.close.sockfd_ = -1 ∧ s.close.state_ = s.state_
      ∧ (s.sockfd_ ≠ -1 →
          s.close.ssl_ = 0 ∧ s.close.requests_to_send_ = 0
            ∧ s.close.followups_to_send_ = 0) := by
  refine ⟨close_sockfd s, close_state s, fun h => ?_⟩
  unfold SlowSocket.close
  rw [if_neg h]
  by_cases hs : s.ssl_ = 0 <;> simp [hs]

/-- Witness for C6 (amended), on `connectedSlot`. -/
theorem close_postcondition_witness :
    connectedSlot.sockfd_ ≠ -1
      ∧ connectedSlot.close.sockfd_ = -1
      ∧ connectedSlot.close.state_ = SocketState.eConnected
      ∧ connectedSlot.close.ssl_ = 0 ∧ connectedSlot.close.requests_to_send_ = 0
      ∧ connectedSlot.close.followups_to_send_ = 0 :=
  ⟨by decide, (close_postcondition connectedSlot).1, (close_postcondition connectedSlot).2.1,
   (close_postcondition connectedSlot).2.2 (by decide)⟩

/-- C7: `close()` is idempotent, `close(close(s)) = close(s)` as whole objects, and on a
slot whose descriptor is already absent it changes no field. -/
theorem close_idempotent (s : SlowSocket) :
    s.close.close = s.close ∧ (s.sockfd_ = -1 → s.close = s) :=
  ⟨close_of_absent s.close (close_sockfd s), close_of_absent s⟩

/-- Witness for C7, on the slot left by an `init` whose only connection
attempt is refused: its descriptor is absent and `close()` returns it as it is. -/
theorem close_idempotent_witness :
    (SlowSocket.new.init [⟨2, 1, 6, 1⟩] false 0 5 firstRefused).sock.sockfd_ = -1
      ∧ (SlowSocket.new.init [⟨2, 1, 6, 1⟩] false 0 5 firstRefused).sock.close
          = (SlowSocket.new.init [⟨2, 1, 6, 1⟩] false 0 5 firstRefused).sock
      ∧ connectedSlot.close.close = connectedSlot.close :=
  ⟨by decide,
   (close_idempotent (SlowSocket.new.init [⟨2, 1, 6, 1⟩] false 0 5 firstRefused).sock).2
     (by decide),
   (close_idempotent connectedSlot).1⟩

theorem send_slow_write_state (s : SlowSocket) (buf len : Nat) (type : SendType)
    (env : SendEnv) : (s.send_slow_write buf len type env).sock.state_ = s.state_ := by
  unfold SlowSocket.send_slow_write
  cases type <;> by_cases hb : s.buf_ = 0 <;> simp only [hb, if_true, if_false] <;>
    split_ifs <;> rfl

theorem send_slow_state (s : SlowSocket) (buf len : Nat) (type : SendType) (env : SendEnv) :
    (s.send_slow buf len type env).sock.state_ = s.state_ := by
  unfold SlowSocket.send_slow
  simp only
  split_ifs <;> first | exact send_slow_write_state _ _ _ _ _ | exact close_state s | rfl

theorem recv_slow_state (s : SlowSocket) (env : RecvEnv) :
    (s.recv_slow env).1.state_ = s.state_ := by
  unfold SlowSocket.recv_slow
  simp only
  split_ifs <;> rfl

theorem connect_plain_state (s : SlowSocket) (a : addrinfo) (env : InitEnv) :
    (s.connect_plain a env).1.state_ = s.state_ := by
  unfold SlowSocket.connect_plain
  split_ifs <;> first | exact close_state s | rfl

theorem connect_ssl_state (s : SlowSocket) (a : addrinfo) (env : InitEnv) :
    (s.connect_ssl a env).1.state_ = s.state_ := by
  unfold SlowSocket.connect_ssl
  simp only
  split_ifs <;>
    first
    | exact connect_plain_state s a env
    | (rw [close_state]; exact connect_plain_state s a env)

theorem init_loop_state (env : InitEnv) (isSSL : Bool) (a : addrinfo) (f maxfd : Int)
    (l : List addrinfo) (s : SlowSocket) (log : List Nat) :
    (SlowSocket.init_loop env isSSL a f maxfd l s log).sock.state_ = s.state_ := by
  induction l generalizing s log with
  | nil => rfl
  | cons res rest ih =>
    unfold SlowSocket.init_loop
    simp only
    split_ifs <;>
      first
      | rfl
      | exact connect_ssl_state _ a env
      | exact connect_plain_state _ a env
      | (rw [ih]; first | exact connect_ssl_state _ a env | exact connect_plain_state _ a env)

theorem init_state (s : SlowSocket) (addr : List addrinfo) (isSSL : Bool) (maxfd f : Int)
    (env : InitEnv) : (s.init addr isSSL maxfd f env).sock.state_ = s.state_ := by
  unfold SlowSocket.init
  cases addr <;> exact init_loop_state _ _ _ _ _ _ _ _

/-- C8 (counterexample): `set_state(eConnected)` on a slot in state `eError` leaves it in
`eConnected`, and `set_state(eInit)` on a slot in state `eClosed` leaves it in `eInit`. -/
theorem set_state_leaves_terminal :
    ({ connectedSlot with state_ := SocketState.eError }.set_state
        SocketState.eConnected 20).state_ = SocketState.eConnected
      ∧ ({ connectedSlot with state_ := SocketState.eClosed }.set_state
          SocketState.eInit 20).state_ = SocketState.eInit := by
  decide

/-- C8 (amended): `send_slow`, `recv_slow`, `close` and `init` never change the state of a
slot, so they keep a slot in `eError` or `eClosed` there; `set_state(x)` sets the state to
`x` whatever it was, so it keeps the state exactly when `x` is the current state. -/
theorem state_changed_by_set_state_only (s : SlowSocket) :
    (∀ buf len type env, (s.send_slow buf len type env).sock.state_ = s.state_)
      ∧ (∀ env, (s.recv_slow env).1.state_ = s.state_)
      ∧ s.close.state_ = s.state_
      ∧ (∀ addr isSSL maxfd f env, (s.init addr isSSL maxfd f env).sock.state_ = s.state_)
      ∧ (∀ x t, (s.set_state x t).state_ = x)
      ∧ (∀ x t, (s.set_state x t).state_ = s.state_ ↔ x = s.state_) := by
  have hset : ∀ x t, (s.set_state x t).state_ = x := by
    intro x t
    cases x <;> rfl
  refine ⟨send_slow_state s, recv_slow_state s, close_state s, init_state s, hset, ?_⟩
  intro x t
  rw [hset]

/-- C3 (the code at the failing input): with two resolved addresses of which the first
refuses the connection at once and the second would start connecting, `init` calls
`connect` twice on the first socket address and never on the second, ends with no
descriptor, and returns `true`; on an empty list it returns `true` as well. -/
theorem init_retries_head_address :
    (SlowSocket.new.init twoAddresses false 0 3 firstRefused).connects = [1, 1]
      ∧ (SlowSocket.new.init twoAddresses false 0 3 firstRefused).ret = true
      ∧ (SlowSocket.new.init twoAddresses false 0 3 firstRefused).sock.sockfd_ = -1
      ∧ (SlowSocket.new.init [] false 0 3 firstRefused).ret = true
      ∧ (SlowSocket.new.init [] false 0 3 firstRefused).connects = [] := by
  decide

end slowhttptest

/-! ## The option loop of `main` -/

namespace slowhttptestmain

theorem ite_error_ne_zero {c : Prop} [Decidable c] {a b : Except Int Locals} {code : Int}
    (ha : a = Except.error code → code ≠ 0) (hb : b = Except.error code → code ≠ 0) :
    (if c then a else b) = Except.error code → code ≠ 0 := by
  by_cases hc : c
  · rw [if_pos hc]; exact ha
  · rw [if_neg hc]; exact hb

theorem main_switch_code (strtol : String → Int) (o : Char) (optarg : String) (v : Locals)
    (code : Int) (h : main_switch strtol o optarg v = Except.error code) : code ≠ 0 := by
  revert h
  unfold main_switch
  repeat' apply ite_error_ne_zero
  all_goals
    intro h
    first
    | (cases h; decide)
    | cases h

theorem main_switch_bad (strtol : String → Int) (o : Char) (optarg : String) (v : Locals)
    (ho : o ∈ ['c', 'i', 'l', 'r', 's', 'x'])
    (hbad : strtol optarg = 0 ∨ upper_bound o < strtol optarg) :
    main_switch strtol o optarg v = Except.error (-1) := by
  simp only [List.mem_cons, List.mem_singleton, List.not_mem_nil, or_false] at ho
  have hno : ¬ (strtol optarg ≠ 0 ∧ strtol optarg ≤ upper_bound o) := by
    rintro ⟨h1, h2⟩
    rcases hbad with h | h
    · exact h1 h
    · omega
  unfold main_switch
  rcases ho with rfl | rfl | rfl | rfl | rfl | rfl <;>
    simp +decide only [upper_bound, if_true, if_false] at hno ⊢ <;>
    rw [if_neg hno]

theorem main_loop_exits (strtol : String → Int) (o : Char) (optarg : String)
    (ho : o ∈ ['c', 'i', 'l', 'r', 's', 'x'])
    (hbad : strtol optarg = 0 ∨ upper_bound o < strtol optarg)
    (opts : List (Char × String)) :
    ∀ v, (o, optarg) ∈ opts →
      ∃ code, main_loop strtol opts v = Outcome.exited code ∧ code ≠ 0 := by
  induction opts with
  | nil => intro v h; simp at h
  | cons p rest ih =>
    intro v hmem
    obtain ⟨o1, a1⟩ := p
    unfold main_loop
    cases hsw : main_switch strtol o1 a1 v with
    | error code => exact ⟨code, rfl, main_switch_code strtol o1 a1 v code hsw⟩
    | ok w =>
      rcases List.mem_cons.mp hmem with heq | hin
      · cases heq
        rw [main_switch_bad strtol o optarg v ho hbad] at hsw
        cases hsw
      · exact ih w hin

end slowhttptestmain

namespace slowhttptestmain

/-- C4 (counterexample): `-c -5` and `-v 7` are both accepted.  With `-c -5` the parsed
value is negative, yet `main` reaches the construction of the test object with
`conn_cnt = -5`; with `-v 7` the value is outside 0..4, yet `main` reaches the construction
with `debug_level = LOG_FATAL`. -/
theorem main_accepts_negative_and_verbosity :
    strtol "-5" = -5
      ∧ main strtol 3 [('c', "-5")]
          = Outcome.constructed { defaults with conn_cnt := -5, url := DEFAULT_URL }
      ∧ strtol "7" = 7
      ∧ main strtol 3 [('v', "7")]
          = Outcome.constructed { defaults with debug_level := LOG_FATAL, url := DEFAULT_URL } := by
  decide

/-- C4 (amended): for each of the options `-c`, `-i`, `-l`, `-r`, `-s` and `-x`, an argument
whose parsed value is zero or above the option's upper bound (1024 for `-c`, `INT_MAX` for
the others) makes `main` return a non-zero code before the test object is constructed,
wherever the option stands on the command line; for `-v` a value outside 0..4 is no
failure: the verbosity becomes `LOG_FATAL` and the option loop goes on. -/
theorem main_numeric_option_check (strtol : String → Int) :
    (∀ (argc : Int) (opts : List (Char × String)) (o : Char) (optarg : String),
        (o, optarg) ∈ opts → o ∈ ['c', 'i', 'l', 'r', 's', 'x'] →
        (strtol optarg = 0 ∨ upper_bound o < strtol optarg) →
        ∃ code, main strtol argc opts = Outcome.exited code ∧ code ≠ 0)
      ∧ (∀ (optarg : String) (rest : List (Char × String)) (v : Locals),
          ¬ (0 ≤ strtol optarg ∧ strtol optarg ≤ 4) →
          main_loop strtol (('v', optarg) :: rest) v
            = main_loop strtol rest { v with debug_level := LOG_FATAL }) := by
  constructor
  · intro argc opts o optarg hmem ho hbad
    unfold main
    by_cases ha : argc < 1
    · rw [if_pos ha]
      exact ⟨-1, rfl, by decide⟩
    · rw [if_neg ha]
      exact main_loop_exits strtol o optarg ho hbad opts defaults hmem
  · intro optarg rest v hv
    have hsw : main_switch strtol 'v' optarg v
        = Except.ok { v with debug_level := LOG_FATAL } := by
      unfold main_switch
      simp +decide only [if_true, if_false]
      rw [if_neg hv]
    rw [main_loop, hsw]

/-- Witness for C4 (amended): `-g -c 2000` exits non-zero, and `-v 7` in front
of `-g` goes on with verbosity `LOG_FATAL`. -/
theorem main_numeric_option_check_witness :
    (('c', "2000") ∈ [('g', ""), ('c', "2000")] ∧ 'c' ∈ ['c', 'i', 'l', 'r', 's', 'x']
        ∧ (strtol "2000" = 0 ∨ upper_bound 'c' < strtol "2000")
        ∧ ∃ code, main strtol 4 [('g', ""), ('c', "2000")] = Outcome.exited code ∧ code ≠ 0)
      ∧ (¬ (0 ≤ strtol "7" ∧ strtol "7" ≤ 4)
        ∧ main_loop strtol [('v', "7"), ('g', "")] defaults
            = main_loop strtol [('g', "")] { defaults with debug_level := LOG_FATAL }) :=
  ⟨⟨by decide, by decide, by decide,
    (main_numeric_option_check strtol).1 4 [('g', ""), ('c', "2000")] 'c' "2000"
      (by decide) (by decide) (by decide)⟩,
   ⟨by decide, (main_numeric_option_check strtol).2 "7" [('g', "")] defaults (by decide)⟩⟩

end slowhttptestmain

/-! ## Sequences of calls on a slot -/

namespace slowhttptest

theorem send_slow_cases (s : SlowSocket) (buf len : Nat) (type : SendType) (env : SendEnv) :
    ((s.send_slow buf len type env).wrote = none
        ∧ ((s.send_slow buf len type env).sock = s.close
          ∨ (s.send_slow buf len type env).sock = { s with requests_to_send_ := 0 }
          ∨ (s.send_slow buf len type env).sock = { s with requests_to_send_ := 1 }))
      ∨ s.send_slow buf len type env = s.send_slow_write buf len type env
      ∨ s.send_slow buf len type env
          = SlowSocket.send_slow_write { s with requests_to_send_ := 1 } buf len type env := by
  unfold SlowSocket.send_slow
  simp only
  split_ifs <;>
    first
    | exact Or.inr (Or.inl rfl)
    | exact Or.inr (Or.inr rfl)
    | exact Or.inl ⟨rfl, Or.inl rfl⟩
    | exact Or.inl ⟨rfl, Or.inr (Or.inl rfl)⟩
    | exact Or.inl ⟨rfl, Or.inr (Or.inr rfl)⟩

theorem send_slow_write_wrote (s : SlowSocket) (buf len : Nat) (type : SendType)
    (env : SendEnv) :
    (s.send_slow_write buf len type env).wrote
      = some (if s.buf_ = 0 then (buf, (len : Int)) else (s.buf_, s.offset_)) := by
  unfold SlowSocket.send_slow_write
  by_cases hb : s.buf_ = 0 <;> simp only [hb, if_true, if_false] <;> split_ifs <;> rfl

theorem send_slow_write_followups (s : SlowSocket) (buf len : Nat) (type : SendType)
    (env : SendEnv) (h : 0 ≤ s.followups_to_send_)
    (hg : type = SendType.eFollowUpSend → 0 < s.followups_to_send_) :
    0 ≤ (s.send_slow_write buf len type env).sock.followups_to_send_ := by
  unfold SlowSocket.send_slow_write
  cases type
  · by_cases hb : s.buf_ = 0 <;> simp only [hb, if_true, if_false] <;> split_ifs <;> exact h
  · have hpos := hg rfl
    by_cases hb : s.buf_ = 0 <;> simp only [hb, if_true, if_false] <;> split_ifs <;>
      first
      | exact h
      | (simp; omega)

theorem send_slow_followups (s : SlowSocket) (buf len : Nat) (type : SendType)
    (env : SendEnv) (h : 0 ≤ s.followups_to_send_)
    (hg : type = SendType.eFollowUpSend → 0 < s.followups_to_send_) :
    0 ≤ (s.send_slow buf len type env).sock.followups_to_send_ := by
  rcases send_slow_cases s buf len type env with ⟨_, hc | hc | hc⟩ | hc | hc
  · rw [hc]; exact close_followups_nonneg s h
  · rw [hc]; exact h
  · rw [hc]; exact h
  · rw [hc]; exact send_slow_write_followups s buf len type env h hg
  · rw [hc]; exact send_slow_write_followups _ buf len type env h hg

theorem recv_slow_keeps (s : SlowSocket) (env : RecvEnv) :
    (s.recv_slow env).1.followups_to_send_ = s.followups_to_send_
      ∧ (s.recv_slow env).1.buf_ = s.buf_ := by
  unfold SlowSocket.recv_slow
  simp only
  split_ifs <;> exact ⟨rfl, rfl⟩

theorem connect_plain_followups (s : SlowSocket) (a : addrinfo) (env : InitEnv)
    (h : 0 ≤ s.followups_to_send_) : 0 ≤ (s.connect_plain a env).1.followups_to_send_ := by
  unfold SlowSocket.connect_plain
  split_ifs <;> first | exact close_followups_nonneg s h | exact h

theorem connect_ssl_followups (s : SlowSocket) (a : addrinfo) (env : InitEnv)
    (h : 0 ≤ s.followups_to_send_) : 0 ≤ (s.connect_ssl a env).1.followups_to_send_ := by
  have hp := connect_plain_followups s a env h
  unfold SlowSocket.connect_ssl
  simp only
  split_ifs <;>
    first
    | exact hp
    | exact close_followups_nonneg _ hp

theorem init_loop_followups (env : InitEnv) (isSSL : Bool) (a : addrinfo) (f maxfd : Int)
    (hf : 0 ≤ f) (l : List addrinfo) (s : SlowSocket) (log : List Nat)
    (h : 0 ≤ s.followups_to_send_) :
    0 ≤ (SlowSocket.init_loop env isSSL a f maxfd l s log).sock.followups_to_send_ := by
  induction l generalizing s log with
  | nil => exact hf
  | cons res rest ih =>
    unfold SlowSocket.init_loop
    simp only
    split_ifs <;>
      first
      | exact hf
      | exact h
      | (apply ih; first
          | exact connect_ssl_followups _ a env h
          | exact connect_plain_followups _ a env h)

theorem step_followups (s : SlowSocket) (op : Op) (h : 0 ≤ s.followups_to_send_)
    (hg : followupGuard s op = true) : 0 ≤ (step s op).followups_to_send_ := by
  cases op with
  | init addr isSSL maxfd f env =>
    have hf : 0 ≤ f := by simpa [followupGuard] using hg
    unfold step SlowSocket.init
    cases addr <;> exact init_loop_followups _ _ _ _ _ hf _ _ _ h
  | send_slow buf len type env =>
    apply send_slow_followups s buf len type env h
    intro ht
    subst ht
    simpa [followupGuard] using hg
  | recv_slow env =>
    unfold step
    rw [(recv_slow_keeps s env).1]
    exact h
  | close => exact close_followups_nonneg s h

theorem run_followups (ops : List Op) :
    ∀ s : SlowSocket, 0 ≤ s.followups_to_send_ → followupGuarded s ops = true →
      0 ≤ (run s ops).followups_to_send_ := by
  induction ops with
  | nil => intro s h _; exact h
  | cons op rest ih =>
    intro s h hg
    unfold followupGuarded at hg
    rw [Bool.and_eq_true] at hg
    unfold run
    exact ih (step s op) (step_followups s op h hg.1) hg.2

/-- C9 (counterexample): a slot initialised with `followups_to_send = 0` on which one
`send_slow` of type `eFollowUpSend` completes has `followups_to_send_ = -1`. -/
theorem followups_can_go_negative :
    (run SlowSocket.new
        [Op.init twoAddresses false 0 0 allStarted,
         Op.send_slow 100 5 SendType.eFollowUpSend (wrote 5)]).followups_to_send_ = -1
      ∧ ¬ 0 ≤ (run SlowSocket.new
        [Op.init twoAddresses false 0 0 allStarted,
         Op.send_slow 100 5 SendType.eFollowUpSend (wrote 5)]).followups_to_send_ := by
  decide

/-- C9 (amended): `followups_to_send_` is never negative on a slot reached from a freshly
constructed one by any sequence of `init` (with a non-negative `followups_to_send`),
`send_slow` of type `eInitialSend`, `send_slow` of type `eFollowUpSend` issued only while
`followups_to_send_` is positive, `recv_slow` and `close`, whatever the environment
answers. -/
theorem followups_nonneg_when_guarded (ops : List Op)
    (hg : followupGuarded SlowSocket.new ops = true) :
    0 ≤ (run SlowSocket.new ops).followups_to_send_ :=
  run_followups ops SlowSocket.new (by decide) hg

/-- Witness for C9 (amended): `init` with one follow-up, the initial
request, the follow-up, a read and `close`. -/
theorem followups_nonneg_when_guarded_witness :
    followupGuarded SlowSocket.new
        [Op.init twoAddresses false 0 1 allStarted,
         Op.send_slow 100 5 SendType.eInitialSend (wrote 5),
         Op.send_slow 200 4 SendType.eFollowUpSend (wrote 4),
         Op.recv_slow ⟨0, 0, true⟩, Op.close] = true
      ∧ 0 ≤ (run SlowSocket.new
        [Op.init twoAddresses false 0 1 allStarted,
         Op.send_slow 100 5 SendType.eInitialSend (wrote 5),
         Op.send_slow 200 4 SendType.eFollowUpSend (wrote 4),
         Op.recv_slow ⟨0, 0, true⟩, Op.close]).followups_to_send_ :=
  ⟨by decide, followups_nonneg_when_guarded _ (by decide)⟩

end slowhttptest

namespace slowhttptest

end slowhttptest

/-! ## The partial-write law -/

namespace slowhttptest

theorem before_write_requests (s : SlowSocket) (type : SendType) (e : SendEnv) :
    (before_write s e).requests_to_send_
      = if completesHandshake s [(type, e)] = true then 1 else s.requests_to_send_ := by
  unfold before_write completesHandshake
  by_cases hs : s.ssl_ = 0 <;> cases hf : e.SSL_is_init_finished <;> simp [hs, hf]

theorem completesHandshake_cons (s : SlowSocket) (c : SendType × SendEnv)
    (cs : List (SendType × SendEnv)) :
    completesHandshake s (c :: cs)
      = (completesHandshake s [c] || completesHandshake s cs) := by
  unfold completesHandshake
  by_cases hs : s.ssl_ = 0 <;> simp [hs]

theorem completesHandshake_ssl (s t : SlowSocket) (cs : List (SendType × SendEnv))
    (h : t.ssl_ = s.ssl_) : completesHandshake t cs = completesHandshake s cs := by
  unfold completesHandshake
  rw [h]

theorem completesHandshake_of_plain (s : SlowSocket) (cs : List (SendType × SendEnv))
    (h : s.ssl_ = 0 ∨ ∀ x ∈ cs, x.2.SSL_is_init_finished = true) :
    completesHandshake s cs = false := by
  unfold completesHandshake
  rcases h with h | h
  · simp [h]
  · rw [Bool.and_eq_false_iff]
    right
    rw [Bool.eq_false_iff]
    intro hany
    rw [List.any_eq_true] at hany
    obtain ⟨x, hx, hxf⟩ := hany
    rw [h x hx] at hxf
    simp at hxf

theorem send_write_step (s : SlowSocket) (buf L : Nat) (type : SendType) (e : SendEnv)
    (rem : Int)
    (hinv : (s.buf_ = 0 ∧ rem = (L : Int)) ∨ (s.buf_ ≠ 0 ∧ s.offset_ = rem)) :
    (s.send_slow_write buf L type e).sock.ssl_ = s.ssl_
      ∧ (e.write ≤ 0 →
          (s.send_slow_write buf L type e).sock.offset_ = rem
          ∧ (((s.send_slow_write buf L type e).sock.buf_ = 0 ∧ rem = (L : Int))
            ∨ ((s.send_slow_write buf L type e).sock.buf_ ≠ 0
              ∧ (s.send_slow_write buf L type e).sock.offset_ = rem))
          ∧ (s.send_slow_write buf L type e).sock.followups_to_send_ = s.followups_to_send_
          ∧ (s.send_slow_write buf L type e).sock.requests_to_send_ = s.requests_to_send_)
      ∧ (0 < e.write → e.write < rem →
          (s.send_slow_write buf L type e).sock.offset_ = rem - e.write
          ∧ (s.send_slow_write buf L type e).sock.buf_ ≠ 0
          ∧ (s.send_slow_write buf L type e).sock.followups_to_send_ = s.followups_to_send_
          ∧ (s.send_slow_write buf L type e).sock.requests_to_send_ = s.requests_to_send_)
      ∧ (0 < e.write → e.write = rem →
          (s.send_slow_write buf L type e).sock.offset_ = 0
          ∧ (s.send_slow_write buf L type e).sock.buf_ = 0
          ∧ (s.send_slow_write buf L type e).sock.followups_to_send_
              = s.followups_to_send_ - (if type = SendType.eFollowUpSend then 1 else 0)
          ∧ (s.send_slow_write buf L type e).sock.requests_to_send_
              = s.requests_to_send_ - (if type = SendType.eInitialSend then 1 else 0)) := by
  unfold SlowSocket.send_slow_write
  rcases hinv with ⟨hb, hr⟩ | ⟨hb, ho⟩
  · subst hr
    simp only [hb, if_true]
    refine ⟨?_, ?_, ?_, ?_⟩
    · split_ifs <;> cases type <;> rfl
    · intro hw
      rw [if_neg (by omega), if_neg (by omega)]
      by_cases hbuf : buf = 0
      · exact ⟨rfl, Or.inl ⟨hbuf, trivial⟩, rfl, rfl⟩
      · exact ⟨rfl, Or.inr ⟨hbuf, rfl⟩, rfl, rfl⟩
    · intro hw hlt
      rw [if_neg (by omega), if_pos ⟨hw, hlt⟩]
      refine ⟨rfl, ?_, rfl, rfl⟩
      show buf + e.write.toNat ≠ 0
      omega
    · intro hw heq
      rw [if_pos ⟨hw, heq⟩]
      cases type <;> simp
  · subst ho
    simp only [hb, if_false]
    refine ⟨?_, ?_, ?_, ?_⟩
    · split_ifs <;> cases type <;> rfl
    · intro hw
      rw [if_neg (by omega), if_neg (by omega)]
      exact ⟨rfl, Or.inr ⟨hb, rfl⟩, rfl, rfl⟩
    · intro hw hlt
      rw [if_neg (by omega), if_pos ⟨hw, hlt⟩]
      refine ⟨rfl, ?_, rfl, rfl⟩
      show s.buf_ + e.write.toNat ≠ 0
      omega
    · intro hw heq
      rw [if_pos ⟨hw, heq⟩]
      cases type <;> simp

theorem send_step (s : SlowSocket) (buf L : Nat) (type : SendType) (e : SendEnv) (rem : Int)
    (hinv : (s.buf_ = 0 ∧ rem = (L : Int)) ∨ (s.buf_ ≠ 0 ∧ s.offset_ = rem))
    (hr : s.ssl_ = 0 ∨ e.SSL_is_init_finished = true ∨ 0 < e.SSL_do_handshake) :
    (s.send_slow buf L type e).sock.ssl_ = s.ssl_
      ∧ (s.send_slow buf L type e).wrote = some (if s.buf_ = 0 then buf else s.buf_, rem)
      ∧ (e.write ≤ 0 →
          (s.send_slow buf L type e).sock.offset_ = rem
          ∧ (((s.send_slow buf L type e).sock.buf_ = 0 ∧ rem = (L : Int))
            ∨ ((s.send_slow buf L type e).sock.buf_ ≠ 0
              ∧ (s.send_slow buf L type e).sock.offset_ = rem))
          ∧ (s.send_slow buf L type e).sock.followups_to_send_ = s.followups_to_send_
          ∧ (s.send_slow buf L type e).sock.requests_to_send_
              = (if completesHandshake s [(type, e)] = true then 1
                  else s.requests_to_send_))
      ∧ (0 < e.write → e.write < rem →
          (s.send_slow buf L type e).sock.offset_ = rem - e.write
          ∧ (s.send_slow buf L type e).sock.buf_ ≠ 0
          ∧ (s.send_slow buf L type e).sock.followups_to_send_ = s.followups_to_send_
          ∧ (s.send_slow buf L type e).sock.requests_to_send_
              = (if completesHandshake s [(type, e)] = true then 1
                  else s.requests_to_send_))
      ∧ (0 < e.write → e.write = rem →
          (s.send_slow buf L type e).sock.offset_ = 0
          ∧ (s.send_slow buf L type e).sock.buf_ = 0
          ∧ (s.send_slow buf L type e).sock.followups_to_send_
              = s.followups_to_send_ - (if type = SendType.eFollowUpSend then 1 else 0)
          ∧ (s.send_slow buf L type e).sock.requests_to_send_
              = (if completesHandshake s [(type, e)] = true then 1
                  else s.requests_to_send_)
                - (if type = SendType.eInitialSend then 1 else 0)) := by
  obtain ⟨hb, ho, hssl, hfol⟩ := before_write_fields s e
  have hinv1 : ((before_write s e).buf_ = 0 ∧ rem = (L : Int))
      ∨ ((before_write s e).buf_ ≠ 0 ∧ (before_write s e).offset_ = rem) := by
    rw [hb, ho]
    exact hinv
  have hwrote : ((before_write s e).send_slow_write buf L type e).wrote
      = some (if s.buf_ = 0 then buf else s.buf_, rem) := by
    rw [send_slow_write_wrote, hb, ho]
    rcases hinv with ⟨h0, hrem⟩ | ⟨h0, hoff⟩
    · rw [if_pos h0, if_pos h0, hrem]
    · rw [if_neg h0, if_neg h0, hoff]
  rw [send_slow_of_inputs s buf L type e hr, ← hssl, ← hfol,
    ← before_write_requests s type e]
  exact ⟨(send_write_step (before_write s e) buf L type e rem hinv1).1, hwrote,
    (send_write_step (before_write s e) buf L type e rem hinv1).2⟩

theorem consumed_append (pre : List (SendType × SendEnv)) (c : SendType × SendEnv) :
    consumed (pre ++ [c]) = consumed pre + (if 0 < c.2.write then c.2.write else 0) := by
  induction pre with
  | nil => simp [consumed]
  | cons x xs ih =>
    rw [List.cons_append]
    unfold consumed
    rw [ih]
    omega

theorem prefix_law (buf L : Nat) (pre : List (SendType × SendEnv)) :
    ∀ (s : SlowSocket) (rem : Int) (rest : List (SendType × SendEnv)),
      ((s.buf_ = 0 ∧ rem = (L : Int)) ∨ (s.buf_ ≠ 0 ∧ s.offset_ = rem)) →
      0 < rem → rest ≠ [] →
      (s.ssl_ = 0
        ∨ ∀ x ∈ pre, x.2.SSL_is_init_finished = true ∨ 0 < x.2.SSL_do_handshake) →
      validWrites rem (pre ++ rest) = true →
      (((send_all buf L s pre).buf_ = 0 ∧ rem - consumed pre = (L : Int))
          ∨ ((send_all buf L s pre).buf_ ≠ 0
            ∧ (send_all buf L s pre).offset_ = rem - consumed pre))
        ∧ 0 < rem - consumed pre
        ∧ validWrites (rem - consumed pre) rest = true
        ∧ (send_all buf L s pre).ssl_ = s.ssl_
        ∧ (send_all buf L s pre).followups_to_send_ = s.followups_to_send_
        ∧ (send_all buf L s pre).requests_to_send_
            = (if completesHandshake s pre = true then 1 else s.requests_to_send_) := by
  induction pre with
  | nil =>
    intro s rem rest hinv hrem _ _ hv
    have hc : consumed [] = 0 := rfl
    rw [hc, sub_zero]
    exact ⟨hinv, hrem, hv, rfl, rfl, by simp [completesHandshake, send_all]⟩
  | cons c cs ih =>
    intro s rem rest hinv hrem hne hr hv
    obtain ⟨type, e⟩ := c
    rw [List.cons_append] at hv
    have hre : s.ssl_ = 0 ∨ e.SSL_is_init_finished = true ∨ 0 < e.SSL_do_handshake := by
      rcases hr with h | h
      · exact Or.inl h
      · exact Or.inr (h (type, e) (List.mem_cons_self _ _))
    obtain ⟨hssl, _, h0, h1, _⟩ := send_step s buf L type e rem hinv hre
    have hrs : (s.send_slow buf L type e).sock.ssl_ = 0
        ∨ ∀ x ∈ cs, x.2.SSL_is_init_finished = true ∨ 0 < x.2.SSL_do_handshake := by
      rcases hr with h | h
      · exact Or.inl (hssl.trans h)
      · exact Or.inr (fun x hx => h x (List.mem_cons_of_mem _ hx))
    have hnil : ¬ (cs ++ rest).isEmpty = true := by
      rw [List.isEmpty_iff]
      intro h
      exact hne (List.append_eq_nil.mp h).2
    have hreq : ∀ r : Int,
        r = (if completesHandshake s [(type, e)] = true then 1 else s.requests_to_send_) →
        (if completesHandshake s cs = true then 1 else r)
          = (if completesHandshake s ((type, e) :: cs) = true then 1
              else s.requests_to_send_) := by
      intro r hreq
      rw [completesHandshake_cons s (type, e) cs, hreq]
      cases completesHandshake s [(type, e)] <;> cases completesHandshake s cs <;> simp
    unfold validWrites at hv
    simp only at hv
    unfold send_all consumed
    simp only
    by_cases hw : e.write ≤ 0
    · rw [if_pos hw] at hv
      obtain ⟨_, hinv1, hf, hq⟩ := h0 hw
      obtain ⟨i1, i2, i3, i4, i5, i6⟩ := ih _ rem rest hinv1 hrem hne hrs hv
      rw [if_neg (by omega)]
      have hsub : rem - (0 + consumed cs) = rem - consumed cs := by omega
      rw [hsub]
      refine ⟨i1, i2, i3, i4.trans hssl, i5.trans hf, ?_⟩
      rw [i6, completesHandshake_ssl s _ cs hssl]
      exact hreq _ hq
    · rw [if_neg hw] at hv
      rw [if_pos (by omega)]
      by_cases hlt : e.write < rem
      · rw [if_pos hlt] at hv
        obtain ⟨hoff, hbuf, hf, hq⟩ := h1 (by omega) hlt
        obtain ⟨i1, i2, i3, i4, i5, i6⟩ :=
          ih _ (rem - e.write) rest (Or.inr ⟨hbuf, hoff⟩) (by omega) hne hrs hv
        have hsub : rem - (e.write + consumed cs) = rem - e.write - consumed cs := by omega
        rw [hsub]
        refine ⟨i1, i2, i3, i4.trans hssl, i5.trans hf, ?_⟩
        rw [i6, completesHandshake_ssl s _ cs hssl]
        exact hreq _ hq
      · rw [if_neg hlt] at hv
        rw [Bool.and_eq_true] at hv
        exact absurd hv.2 hnil

/-- C2 (counterexample): on `handshakingSlot`, a TLS slot with nothing pending and
`requests_to_send_ = 0`, one `send_slow` of five bytes of type `eInitialSend` whose
handshake step completes the handshake and whose transport write accepts all five bytes
hands the transport `(100, 5)` and brings the remaining length to zero, yet
`requests_to_send_` is 0 after the call as before it: line 186 has set it to 1 before the
decrement, so the owning counter is not one below its value before the sequence. -/
theorem handshake_resets_requests :
    handshakingSlot.buf_ = 0 ∧ handshakingSlot.requests_to_send_ = 0
      ∧ validWrites 5 [(SendType.eInitialSend, completing 5)] = true
      ∧ (handshakingSlot.send_slow 100 5 SendType.eInitialSend (completing 5)).wrote
          = some (100, 5)
      ∧ (handshakingSlot.send_slow 100 5 SendType.eInitialSend (completing 5)).ret = 5
      ∧ (handshakingSlot.send_slow 100 5 SendType.eInitialSend (completing 5)).sock.offset_
          = 0
      ∧ (handshakingSlot.send_slow 100 5 SendType.eInitialSend
            (completing 5)).sock.requests_to_send_ = 0
      ∧ ¬ (handshakingSlot.send_slow 100 5 SendType.eInitialSend
            (completing 5)).sock.requests_to_send_
          = handshakingSlot.requests_to_send_ - 1 := by
  decide

/-- C2 (amended): partial-write law.  On a slot with nothing pending take a buffer of
length `L > 0` and a sequence of `send_slow` calls on it, of either type, each of which gets
as far as the transport write (the slot has no TLS session, or the handshake is finished, or
the handshake step of the call completes it) and is answered by the transport with a
non-positive value or with a value between 1 and what remains, no call following the one
that completes the buffer.  For each call `(type, e)` of the sequence, made after the calls
`pre` and before the calls `post`: the call hands the transport the pending position
(the given buffer when nothing is pending) and exactly the `L` bytes less those consumed so
far; after it the bytes consumed so far plus the pending remaining length
`offset_` equal `L`; the remaining length is zero only after the last call;
`followups_to_send_` is its value before the sequence, less one exactly if the call is of
type `eFollowUpSend` and has brought the remaining length to zero; `requests_to_send_` is
its value before the sequence, or 1 once a call has completed the TLS handshake, less one
exactly if the call is of type `eInitialSend` and has brought the remaining length to
zero.  So on a slot without TLS or with the handshake finished throughout, the counter of
the call's type is one below its value before the sequence exactly if the remaining length
has reached zero, and the other counter is unchanged. -/
theorem partial_write_law (s : SlowSocket) (buf L : Nat)
    (pre : List (SendType × SendEnv)) (type : SendType) (e : SendEnv)
    (post : List (SendType × SendEnv))
    (hb : s.buf_ = 0) (hL : 0 < L)
    (hr : s.ssl_ = 0
      ∨ ∀ x ∈ pre ++ [(type, e)],
          x.2.SSL_is_init_finished = true ∨ 0 < x.2.SSL_do_handshake)
    (hv : validWrites (L : Int) (pre ++ (type, e) :: post) = true) :
    ((send_all buf L s pre).send_slow buf L type e).wrote
        = some (if (send_all buf L s pre).buf_ = 0 then buf else (send_all buf L s pre).buf_,
            (L : Int) - consumed pre)
      ∧ ((send_all buf L s pre).send_slow buf L type e).ret = e.write
      ∧ consumed (pre ++ [(type, e)])
          + ((send_all buf L s pre).send_slow buf L type e).sock.offset_ = (L : Int)
      ∧ (((send_all buf L s pre).send_slow buf L type e).sock.offset_ = 0 → post = [])
      ∧ ((send_all buf L s pre).send_slow buf L type e).sock.followups_to_send_
          = s.followups_to_send_
            - (if type = SendType.eFollowUpSend
                  ∧ ((send_all buf L s pre).send_slow buf L type e).sock.offset_ = 0
                then 1 else 0)
      ∧ ((send_all buf L s pre).send_slow buf L type e).sock.requests_to_send_
          = (if completesHandshake s (pre ++ [(type, e)]) = true then 1
              else s.requests_to_send_)
            - (if type = SendType.eInitialSend
                  ∧ ((send_all buf L s pre).send_slow buf L type e).sock.offset_ = 0
                then 1 else 0)
      ∧ ((s.ssl_ = 0 ∨ ∀ x ∈ pre ++ [(type, e)], x.2.SSL_is_init_finished = true) →
          ((send_all buf L s pre).send_slow buf L type e).sock.counter type
              = s.counter type
                - (if ((send_all buf L s pre).send_slow buf L type e).sock.offset_ = 0
                    then 1 else 0)
          ∧ ((send_all buf L s pre).send_slow buf L type e).sock.other_counter type
              = s.other_counter type) := by
  have hrp : s.ssl_ = 0
      ∨ ∀ x ∈ pre, x.2.SSL_is_init_finished = true ∨ 0 < x.2.SSL_do_handshake := by
    rcases hr with h | h
    · exact Or.inl h
    · exact Or.inr (fun x hx => h x (List.mem_append_left _ hx))
  obtain ⟨i1, i2, i3, i4, i5, i6⟩ :=
    prefix_law buf L pre s (L : Int) ((type, e) :: post) (Or.inl ⟨hb, rfl⟩) (by omega)
      (List.cons_ne_nil _ post) hrp hv
  have hre : (send_all buf L s pre).ssl_ = 0 ∨ e.SSL_is_init_finished = true
      ∨ 0 < e.SSL_do_handshake := by
    rcases hr with h | h
    · exact Or.inl (i4.trans h)
    · exact Or.inr (h (type, e) (by simp))
  obtain ⟨_, hwrote, h0, h1, h2⟩ :=
    send_step (send_all buf L s pre) buf L type e ((L : Int) - consumed pre) i1 hre
  have hret : ((send_all buf L s pre).send_slow buf L type e).ret = e.write := by
    rw [send_slow_of_inputs _ buf L type e hre]
    unfold SlowSocket.send_slow_write
    simp only
    split_ifs <;> rfl
  have hbase : (if completesHandshake (send_all buf L s pre) [(type, e)] = true then 1
        else (send_all buf L s pre).requests_to_send_)
      = (if completesHandshake s (pre ++ [(type, e)]) = true then 1
          else s.requests_to_send_) := by
    rw [i6, completesHandshake_ssl s _ _ i4]
    have happ : completesHandshake s (pre ++ [(type, e)])
        = (completesHandshake s pre || completesHandshake s [(type, e)]) := by
      unfold completesHandshake
      by_cases hs : s.ssl_ = 0 <;> simp [hs]
    rw [happ]
    cases completesHandshake s pre <;> cases completesHandshake s [(type, e)] <;> simp
  have hplain : (s.ssl_ = 0 ∨ ∀ x ∈ pre ++ [(type, e)], x.2.SSL_is_init_finished = true) →
      completesHandshake s (pre ++ [(type, e)]) = false :=
    completesHandshake_of_plain s _
  rw [consumed_append]
  unfold validWrites at i3
  simp only at i3 ⊢
  refine ⟨hwrote, hret, ?_⟩
  by_cases hw : e.write ≤ 0
  · obtain ⟨hoff, _, hf, hq⟩ := h0 hw
    rw [hbase] at hq
    rw [i5] at hf
    have hnz : ¬ ((L : Int) - consumed pre = 0) := by omega
    refine ⟨?_, ?_, ?_, ?_, fun hp => ?_⟩
    · rw [hoff, if_neg (by omega)]
      omega
    · rw [hoff]
      exact fun hz => absurd hz hnz
    · rw [hoff, hf]
      simp [hnz]
    · rw [hoff, hq]
      simp [hnz]
    · rw [hplain hp] at hq
      rw [hoff]
      cases type <;> simp [SlowSocket.counter, SlowSocket.other_counter, hf, hq, hnz]
  · rw [if_neg hw] at i3
    by_cases hlt : e.write < (L : Int) - consumed pre
    · obtain ⟨hoff, _, hf, hq⟩ := h1 (by omega) hlt
      rw [hbase] at hq
      rw [i5] at hf
      have hnz : ¬ ((L : Int) - consumed pre - e.write = 0) := by omega
      refine ⟨?_, ?_, ?_, ?_, fun hp => ?_⟩
      · rw [hoff, if_pos (by omega)]
        omega
      · rw [hoff]
        exact fun hz => absurd hz hnz
      · rw [hoff, hf]
        simp [hnz]
      · rw [hoff, hq]
        simp [hnz]
      · rw [hplain hp] at hq
        rw [hoff]
        cases type <;> simp [SlowSocket.counter, SlowSocket.other_counter, hf, hq, hnz]
    · rw [if_neg hlt, Bool.and_eq_true, decide_eq_true_eq, List.isEmpty_iff] at i3
      obtain ⟨hoff, _, hf, hq⟩ := h2 (by omega) i3.1
      rw [hbase] at hq
      rw [i5] at hf
      refine ⟨?_, ?_, ?_, ?_, fun hp => ?_⟩
      · rw [hoff, if_pos (by omega)]
        omega
      · exact fun _ => i3.2
      · rw [hoff, hf]
        simp
      · rw [hoff, hq]
        simp
      · rw [hplain hp] at hq
        rw [hoff]
        cases type <;> simp [SlowSocket.counter, SlowSocket.other_counter, hf, hq]

/-- Witness for C2 (amended).  On `connectedSlot`, five bytes sent as a would-block, two
bytes and the remaining three, type `eInitialSend`: after the second call two bytes are
consumed, three remain and `requests_to_send_` is still 1; after the third nothing remains
and `requests_to_send_` is 0.  On `connectedSlot`, five bytes of type `eFollowUpSend` sent
as two and three: `followups_to_send_` goes from 2 to 1 on the second call.  On
`handshakingSlot`, five bytes of type `eFollowUpSend` in one call that completes the
handshake: `followups_to_send_` goes from 2 to 1 and `requests_to_send_` is 1. -/
theorem partial_write_law_witness :
    (connectedSlot.buf_ = 0 ∧ 0 < 5
        ∧ validWrites 5
            [(SendType.eInitialSend, wrote (-1)), (SendType.eInitialSend, wrote 2),
             (SendType.eInitialSend, wrote 3)] = true
        ∧ consumed [(SendType.eInitialSend, wrote (-1)), (SendType.eInitialSend, wrote 2)]
            + (send_all 100 5 connectedSlot
                [(SendType.eInitialSend, wrote (-1)),
                 (SendType.eInitialSend, wrote 2)]).offset_ = 5
        ∧ (send_all 100 5 connectedSlot
              [(SendType.eInitialSend, wrote (-1)),
               (SendType.eInitialSend, wrote 2)]).requests_to_send_ = 1
        ∧ (send_all 100 5 connectedSlot
              [(SendType.eInitialSend, wrote (-1)), (SendType.eInitialSend, wrote 2),
               (SendType.eInitialSend, wrote 3)]).requests_to_send_ = 0)
      ∧ (validWrites 5
            [(SendType.eFollowUpSend, wrote 2), (SendType.eFollowUpSend, wrote 3)] = true
        ∧ (send_all 100 5 connectedSlot
              [(SendType.eFollowUpSend, wrote 2),
               (SendType.eFollowUpSend, wrote 3)]).followups_to_send_ = 1)
      ∧ (handshakingSlot.buf_ = 0
        ∧ validWrites 5 [(SendType.eFollowUpSend, completing 5)] = true
        ∧ (handshakingSlot.send_slow 100 5 SendType.eFollowUpSend (completing 5)).wrote
            = some (100, 5)
        ∧ (handshakingSlot.send_slow 100 5 SendType.eFollowUpSend
              (completing 5)).sock.followups_to_send_ = 1
        ∧ (handshakingSlot.send_slow 100 5 SendType.eFollowUpSend
              (completing 5)).sock.requests_to_send_ = 1) :=
  ⟨⟨by decide, by decide, by decide,
    (partial_write_law connectedSlot 100 5 [(SendType.eInitialSend, wrote (-1))]
      SendType.eInitialSend (wrote 2) [(SendType.eInitialSend, wrote 3)]
      (by decide) (by decide) (Or.inl (by decide)) (by decide)).2.2.1,
    (partial_write_law connectedSlot 100 5 [(SendType.eInitialSend, wrote (-1))]
      SendType.eInitialSend (wrote 2) [(SendType.eInitialSend, wrote 3)]
      (by decide) (by decide) (Or.inl (by decide)) (by decide)).2.2.2.2.2.1,
    (partial_write_law connectedSlot 100 5
      [(SendType.eInitialSend, wrote (-1)), (SendType.eInitialSend, wrote 2)]
      SendType.eInitialSend (wrote 3) []
      (by decide) (by decide) (Or.inl (by decide)) (by decide)).2.2.2.2.2.1⟩,
   ⟨by decide,
    (partial_write_law connectedSlot 100 5 [(SendType.eFollowUpSend, wrote 2)]
      SendType.eFollowUpSend (wrote 3) []
      (by decide) (by decide) (Or.inl (by decide)) (by decide)).2.2.2.2.1⟩,
   ⟨by decide, by decide,
    (partial_write_law handshakingSlot 100 5 [] SendType.eFollowUpSend (completing 5) []
      (by decide) (by decide) (Or.inr (by decide)) (by decide)).1,
    (partial_write_law handshakingSlot 100 5 [] SendType.eFollowUpSend (completing 5) []
      (by decide) (by decide) (Or.inr (by decide)) (by decide)).2.2.2.2.1,
    (partial_write_law handshakingSlot 100 5 [] SendType.eFollowUpSend (completing 5) []
      (by decide) (by decide) (Or.inr (by decide)) (by decide)).2.2.2.2.2.1⟩⟩

end slowhttptest
